import Mathlib

/-!
Shallow embedding of the ATP (Agent Tool Protocol) bridge:
`db.py` (manifest registry, fingerprint), `api.py` (execution-log endpoint),
and `atp_translator.py` (schema translation, adapter generation, invocation
classification and best-effort logging).
-/

set_option maxRecDepth 10000

/- ### JSON values (Python dicts/lists/scalars as handled by `json.dumps`) -/

/-- A JSON value as produced by the MCP layer and stored in the registry.
Objects are association lists in insertion order (Python `dict`s: keys are
distinct).  Numeric values are modelled as integers; the schemas this system
fingerprints carry no fractional literals. -/
inductive Json where
  | jnull : Json
  | jbool : Bool → Json
  | jnum : Int → Json
  | jstr : String → Json
  | jarr : List Json → Json
  | jobj : List (String × Json) → Json

/- ### Canonical serialization: `json.dumps(value, sort_keys=True)` -/

/-- Hex digit (lowercase), for escape sequences and digests. -/
def hexDigit (n : Nat) : Char :=
  if n < 10 then Char.ofNat (48 + n) else Char.ofNat (87 + n)

/-- Four-digit lowercase hex rendering of a value below 0x10000. -/
def hex4 (n : Nat) : String :=
  String.mk [hexDigit (n / 4096 % 16), hexDigit (n / 256 % 16),
             hexDigit (n / 16 % 16), hexDigit (n % 16)]

/-- Escape of one character inside a JSON string, per CPython's
default (`ensure_ascii=True`) encoder: the two-character escapes for
quote, backslash and common controls, and unicode escapes (with surrogate
pairs above 0xFFFF) for the rest outside printable ASCII. -/
def jsonEscapeChar (c : Char) : String :=
  let n := c.toNat
  if c = '"' then "\\\""
  else if c = '\\' then "\\\\"
  else if c = '\n' then "\\n"
  else if c = '\t' then "\\t"
  else if c = '\r' then "\\r"
  else if n = 8 then "\\b"
  else if n = 12 then "\\f"
  else if n < 32 || n > 126 then
    if n < 65536 then "\\u" ++ hex4 n
    else
      let m := n - 65536
      "\\u" ++ hex4 (55296 + m / 1024) ++ "\\u" ++ hex4 (56320 + m % 1024)
  else String.mk [c]

/-- JSON rendering of a string: quotes around the escaped characters. -/
def dumpJsonString (s : String) : String :=
  "\"" ++ String.join (s.data.map jsonEscapeChar) ++ "\""

/-- Order on rendered object entries: by key, as Python's `sorted` on the
items of a dict (keys are distinct, so the tuple comparison never reaches
the values). -/
def entryLE (a b : String × String) : Prop := a.1 ≤ b.1

instance : DecidableRel entryLE := fun a b => inferInstanceAs (Decidable (a.1 ≤ b.1))

instance : IsTotal (String × String) entryLE := ⟨fun a b => le_total a.1 b.1⟩

instance : IsTrans (String × String) entryLE := ⟨fun _ _ _ h₁ h₂ => le_trans h₁ h₂⟩

/-- Sort the rendered entries of an object by key (`sort_keys=True`). -/
def sortStrEntries (l : List (String × String)) : List (String × String) :=
  List.insertionSort entryLE l

mutual

/-- Model of `json.dumps(v, sort_keys=True)` with CPython's default
separators (so `", "` between items and `": "` after keys). -/
def Json.dumps : Json → String
  | Json.jnull => "null"
  | Json.jbool b => if b then "true" else "false"
  | Json.jnum n => toString n
  | Json.jstr s => dumpJsonString s
  | Json.jarr l => "[" ++ String.intercalate ", " (dumpsList l) ++ "]"
  | Json.jobj l =>
      "\x7b" ++
        String.intercalate ", "
          ((sortStrEntries (dumpsEntries l)).map
            (fun e => dumpJsonString e.1 ++ ": " ++ e.2)) ++
        "\x7d"

/-- Serialize every element of an array. -/
def dumpsList : List Json → List String
  | [] => []
  | j :: js => Json.dumps j :: dumpsList js

/-- Serialize the value of every object entry, keeping its key. -/
def dumpsEntries : List (String × Json) → List (String × String)
  | [] => []
  | (k, v) :: es => (k, Json.dumps v) :: dumpsEntries es

end

/- ### SHA-256 (`hashlib.sha256(...).hexdigest()`) -/

/-- Truncation to a 32-bit word. -/
def w32 (x : Nat) : Nat := x % 4294967296

/-- Right rotation of a 32-bit word. -/
def rotr32 (n x : Nat) : Nat := w32 ((x >>> n) ||| (x <<< (32 - n)))

/-- SHA-256 choice function. -/
def shaCh (x y z : Nat) : Nat := (x &&& y) ^^^ ((x ^^^ 4294967295) &&& z)

/-- SHA-256 majority function. -/
def shaMaj (x y z : Nat) : Nat := (x &&& y) ^^^ (x &&& z) ^^^ (y &&& z)

/-- SHA-256 big sigma 0. -/
def bSig0 (x : Nat) : Nat := rotr32 2 x ^^^ rotr32 13 x ^^^ rotr32 22 x

/-- SHA-256 big sigma 1. -/
def bSig1 (x : Nat) : Nat := rotr32 6 x ^^^ rotr32 11 x ^^^ rotr32 25 x

/-- SHA-256 small sigma 0. -/
def sSig0 (x : Nat) : Nat := rotr32 7 x ^^^ rotr32 18 x ^^^ (x >>> 3)

/-- SHA-256 small sigma 1. -/
def sSig1 (x : Nat) : Nat := rotr32 17 x ^^^ rotr32 19 x ^^^ (x >>> 10)

/-- The 64 SHA-256 round constants. -/
def sha256K : List Nat :=
  [1116352408, 1899447441, 3049323471, 3921009573, 961987163,
   1508970993, 2453635748, 2870763221, 3624381080, 310598401,
   607225278, 1426881987, 1925078388, 2162078206, 2614888103,
   3248222580, 3835390401, 4022224774, 264347078, 604807628,
   770255983, 1249150122, 1555081692, 1996064986, 2554220882,
   2821834349, 2952996808, 3210313671, 3336571891, 3584528711,
   113926993, 338241895, 666307205, 773529912, 1294757372,
   1396182291, 1695183700, 1986661051, 2177026350, 2456956037,
   2730485921, 2820302411, 3259730800, 3345764771, 3516065817,
   3600352804, 4094571909, 275423344, 430227734, 506948616,
   659060556, 883997877, 958139571, 1322822218, 1537002063,
   1747873779, 1955562222, 2024104815, 2227730452, 2361852424,
   2428436474, 2756734187, 3204031479, 3329325298]

/-- The SHA-256 initial hash value. -/
def sha256H0 : List Nat :=
  [1779033703, 3144134277, 1013904242, 2773480762,
   1359893119, 2600822924, 528734635, 1541459225]

/-- Big-endian bytes of the 64-bit bit-length field. -/
def lenBytes64 (bits : Nat) : List Nat :=
  [bits >>> 56 % 256, bits >>> 48 % 256, bits >>> 40 % 256, bits >>> 32 % 256,
   bits >>> 24 % 256, bits >>> 16 % 256, bits >>> 8 % 256, bits % 256]

/-- SHA-256 padding: append 0x80, zero bytes to 56 mod 64, then the
bit length as eight big-endian bytes. -/
def sha256Pad (msg : List Nat) : List Nat :=
  let z := (64 - (msg.length + 9) % 64) % 64
  msg ++ [128] ++ List.replicate z 0 ++ lenBytes64 (8 * msg.length)

/-- Split a byte list into 64-byte blocks. -/
def chunk64 : List Nat → List (List Nat)
  | [] => []
  | a :: rest => ((a :: rest).take 64) :: chunk64 ((a :: rest).drop 64)
termination_by l => l.length
decreasing_by simp [List.length_drop]; omega

/-- Big-endian 32-bit words from a byte list. -/
def bytesToWords : List Nat → List Nat
  | b0 :: b1 :: b2 :: b3 :: rest =>
      (b0 * 16777216 + b1 * 65536 + b2 * 256 + b3) :: bytesToWords rest
  | _ => []

/-- The 64-entry message schedule of one block. -/
def sha256Ws (block : List Nat) : List Nat :=
  (List.range 64).foldl
    (fun w i =>
      if i < 16 then w ++ [block.getD i 0]
      else
        w ++ [w32 (sSig1 (w.getD (i - 2) 0) + w.getD (i - 7) 0 +
                   sSig0 (w.getD (i - 15) 0) + w.getD (i - 16) 0)])
    []

/-- One SHA-256 compression round on the eight-word working state. -/
def sha256Round (st : List Nat) (wk : Nat × Nat) : List Nat :=
  match st with
  | [a, b, c, d, e, f, g, h] =>
      let t1 := w32 (h + bSig1 e + shaCh e f g + wk.2 + wk.1)
      let t2 := w32 (bSig0 a + shaMaj a b c)
      [w32 (t1 + t2), a, b, c, w32 (d + t1), e, f, g]
  | other => other

/-- Compression of one 16-word block into the running hash. -/
def sha256Compress (h : List Nat) (block : List Nat) : List Nat :=
  let ws := sha256Ws block
  let fin := (ws.zip sha256K).foldl sha256Round h
  (h.zip fin).map (fun p => w32 (p.1 + p.2))

/-- SHA-256 digest (32 bytes) of a byte list. -/
def sha256Bytes (msg : List Nat) : List Nat :=
  let blocks := (chunk64 (sha256Pad msg)).map bytesToWords
  let hFin := blocks.foldl sha256Compress sha256H0
  hFin.flatMap (fun w => [w >>> 24 % 256, w >>> 16 % 256, w >>> 8 % 256, w % 256])

/-- Lowercase hex digest string, as `hexdigest()`. -/
def sha256Hex (msg : List Nat) : String :=
  String.join ((sha256Bytes msg).map
    (fun b => String.mk [hexDigit (b / 16), hexDigit (b % 16)]))

/-- UTF-8 encoding of one character (`str.encode('utf-8')`). -/
def utf8Bytes (c : Char) : List Nat :=
  let n := c.toNat
  if n < 128 then [n]
  else if n < 2048 then [192 + n / 64, 128 + n % 64]
  else if n < 65536 then [224 + n / 4096, 128 + n / 64 % 64, 128 + n % 64]
  else [240 + n / 262144, 128 + n / 4096 % 64, 128 + n / 64 % 64, 128 + n % 64]

/-- UTF-8 bytes of a string. -/
def strBytes (s : String) : List Nat := s.data.flatMap utf8Bytes

/-- Model of `db.generate_manifest_hash`: sha256 hexdigest of the UTF-8
bytes of the canonical string
`server_name + ":" + tool_name + ":" + json.dumps(schema, sort_keys=True)`. -/
def generate_manifest_hash (server_name tool_name : String) (schema : Json) : String :=
  sha256Hex (strBytes (server_name ++ ":" ++ tool_name ++ ":" ++ Json.dumps schema))

/- ### Schema translation (`_json_schema_to_pydantic_type`, `_generate_pydantic_model`) -/

/-- Semantic types of the generated pydantic fields: the six mapped Python
types plus the open `Any` fallback. -/
inductive PydType where
  | str | int | float | bool | list | dict | any
deriving DecidableEq

/-- First value stored under a key in an association-list object
(Python `dict.get`: dict keys are unique). -/
def lookupKey (k : String) : List (String × Json) → Option Json
  | [] => none
  | (k', v) :: es => if k' = k then some v else lookupKey k es

/-- The `type_mapping` dict lookup with default `Any`. -/
def typeMapping (t : String) : PydType :=
  if t = "string" then PydType.str
  else if t = "integer" then PydType.int
  else if t = "number" then PydType.float
  else if t = "boolean" then PydType.bool
  else if t = "array" then PydType.list
  else if t = "object" then PydType.dict
  else PydType.any

/-- Model of `_json_schema_to_pydantic_type`:
`type_mapping.get(schema.get("type", "string"), Any)`.  A declared type that
is a JSON null/bool/number is a hashable non-member key, so `.get` yields
`Any`; array/object values would raise `TypeError` in CPython and are
excluded from the embedded domain by `schemaWF`. -/
def jsonSchemaToPydanticType (fieldSchema : List (String × Json)) : PydType :=
  match lookupKey "type" fieldSchema with
  | some (Json.jstr s) => typeMapping s
  | none => typeMapping "string"
  | some _ => PydType.any

/-- One generated pydantic field: its name, semantic type, whether the
annotation is wrapped in `Optional[...]`, whether it is required
(`Field(...)`) rather than defaulted to `None`, and the declared
description (passed through verbatim, `""` when absent). -/
structure PydField where
  name : String
  type : PydType
  isOptional : Bool
  required : Bool
  description : Json

/-- The generated pydantic model: its synthesized name and fields in
property order. -/
structure PydModel where
  name : String
  fields : List PydField

/-- Python `str.capitalize()`: first character uppercased, the rest
lowercased (ASCII case mapping suffices for the tool names in scope). -/
def pyCapitalize (s : String) : String :=
  match s.data with
  | [] => ""
  | c :: cs => String.mk (c.toUpper :: cs.map Char.toLower)

/-- Python equality between a `str` and a JSON value (`==` against a list
element): true only for an equal string. -/
def jsonEqStr (s : String) (j : Json) : Bool :=
  match j with
  | Json.jstr t => s == t
  | _ => false

/-- The `properties` mapping of an input schema:
`input_schema.get("properties", {})`.  A present non-object value would
raise on `.items()` in CPython and is excluded by `schemaWF`. -/
def schemaProperties (inputSchema : List (String × Json)) : List (String × Json) :=
  match lookupKey "properties" inputSchema with
  | some (Json.jobj l) => l
  | _ => []

/-- The `required` list of an input schema:
`input_schema.get("required", [])`.  A present non-array value changes the
semantics of the `in` test in CPython and is excluded by `schemaWF`. -/
def schemaRequired (inputSchema : List (String × Json)) : List Json :=
  match lookupKey "required" inputSchema with
  | some (Json.jarr l) => l
  | _ => []

/-- Well-formedness of one property entry for the embedding: the field
schema is an object whose declared `type`, if any, is not an array/object
(the cases where CPython would raise instead of degrading). -/
def propWF (p : String × Json) : Bool :=
  match p.2 with
  | Json.jobj fs =>
      match lookupKey "type" fs with
      | some (Json.jarr _) => false
      | some (Json.jobj _) => false
      | _ => true
  | _ => false

/-- Domain of the embedded translator: `properties` absent or an object of
well-formed field schemas, `required` absent or an array. -/
def schemaWF (inputSchema : List (String × Json)) : Bool :=
  (match lookupKey "properties" inputSchema with
   | some (Json.jobj l) => l.all propWF
   | none => true
   | some _ => false) &&
  (match lookupKey "required" inputSchema with
   | some (Json.jarr _) => true
   | none => true
   | some _ => false)

/-- Field generation for one property, given the schema's required list:
required fields get the bare type and `Field(...)`, the rest get
`Optional[type]` and `Field(default=None)`; the description is passed
through with default `""`.  The non-object fallback is never reached on
`schemaWF` inputs (CPython raises there). -/
def fieldOfProperty (reqList : List Json) (p : String × Json) : PydField :=
  match p.2 with
  | Json.jobj fs =>
      let ftype := jsonSchemaToPydanticType fs
      let fdesc := (lookupKey "description" fs).getD (Json.jstr "")
      if reqList.any (jsonEqStr p.1) then
        { name := p.1, type := ftype, isOptional := false, required := true,
          description := fdesc }
      else
        { name := p.1, type := ftype, isOptional := true, required := false,
          description := fdesc }
  | _ =>
      { name := p.1, type := PydType.any, isOptional := true, required := false,
        description := Json.jstr "" }

/-- Model of `_generate_pydantic_model`: one field per property, in
property order, with the synthesized model name
`tool_name.capitalize() + "Input"`. -/
def generatePydanticModel (toolName : String) (inputSchema : List (String × Json)) : PydModel :=
  { name := pyCapitalize toolName ++ "Input",
    fields := (schemaProperties inputSchema).map (fieldOfProperty (schemaRequired inputSchema)) }

/-- JSON-schema type name of a semantic type (`Any` contributes none). -/
def pydTypeName : PydType → Option String
  | PydType.str => some "string"
  | PydType.int => some "integer"
  | PydType.float => some "number"
  | PydType.bool => some "boolean"
  | PydType.list => some "array"
  | PydType.dict => some "object"
  | PydType.any => none

/-- Schema fragment of one generated field, for the stored contract
description. -/
def pydFieldSchema (f : PydField) : Json :=
  Json.jobj ([("title", Json.jstr (pyCapitalize f.name)), ("description", f.description)] ++
    (match pydTypeName f.type with
     | some t => [("type", Json.jstr t)]
     | none => []))

/-- Serializable description of the generated typed contract, stored in the
registry row (`.schema_json()` in the source).  The exact rendering is owned
by the pydantic runtime; it is modelled as a canonical serialization of the
model's fields, and no theorem inspects its contents. -/
def pydModelJson (m : PydModel) : String :=
  Json.dumps (Json.jobj
    ([("title", Json.jstr m.name), ("type", Json.jstr "object"),
      ("properties", Json.jobj (m.fields.map (fun f => (f.name, pydFieldSchema f))))] ++
     (match m.fields.filter (fun f => f.required) with
      | [] => []
      | req => [("required", Json.jarr (req.map (fun f => Json.jstr f.name)))])))

/- ### Manifest registry (`db.ATPToolRegistry` and the discovery-time upsert) -/

/-- One `atp_tool_registry` row.  `id` and `created_at` are the
column defaults (`uuid.uuid4`, `datetime.now`), modelled as opaque numbers
supplied at insertion time; `success_rate` carries the column default 1.0. -/
structure Manifest where
  id : Nat
  mcp_server_name : String
  tool_name : String
  manifest_hash : String
  raw_mcp_schema : Json
  pydantic_schema_code : String
  success_rate : Rat
  last_anomaly_log : Option String
  created_at : Nat

/-- The row inserted by the discovery-time upsert (`ATPToolRegistry(...)`
with the column defaults). -/
def newManifest (newId now : Nat) (serverName toolName : String)
    (schema : List (String × Json)) : Manifest :=
  { id := newId, mcp_server_name := serverName, tool_name := toolName,
    manifest_hash := generate_manifest_hash serverName toolName (Json.jobj schema),
    raw_mcp_schema := Json.jobj schema,
    pydantic_schema_code := pydModelJson (generatePydanticModel toolName schema),
    success_rate := 1, last_anomaly_log := none, created_at := now }

/-- Model of the discovery-time upsert in `ATPTranslator.get_tools`
(lines 75-90): compute the fingerprint, query the first row with that
`manifest_hash`, and if none exists insert a new row (with the generated
contract description and the column defaults) and commit.  Returns the
manifest for the fingerprint together with the registry contents. -/
def registryUpsert (newId now : Nat) (serverName toolName : String)
    (schema : List (String × Json)) (reg : List Manifest) : Manifest × List Manifest :=
  match reg.find? (fun m =>
      m.manifest_hash == generate_manifest_hash serverName toolName (Json.jobj schema)) with
  | some existing => (existing, reg)
  | none =>
      (newManifest newId now serverName toolName schema,
       reg ++ [newManifest newId now serverName toolName schema])

/- ### Execution-log endpoint (`api.create_log`) -/

/-- One `atp_execution_log` row. -/
structure LogEntry where
  id : Nat
  tool_id : Nat
  agent_framework : String
  input_arguments : Json
  execution_result : String
  is_anomaly : Bool
  timestamp : Nat

/-- The request body of `POST /logs` (`LogCreate`). -/
structure LogCreate where
  tool_name : String
  agent_framework : String
  input_arguments : Json
  execution_result : String
  is_anomaly : Bool

/-- A FastAPI `HTTPException` surfaced to the HTTP client. -/
structure HttpError where
  status_code : Nat
  detail : String
deriving DecidableEq

/-- The success body of `POST /logs`. -/
structure LogResponse where
  status : String
  log_id : Nat
deriving DecidableEq

/-- The persistent store: registry rows and log rows, in insertion order. -/
structure DBState where
  registry : List Manifest
  logs : List LogEntry

/-- Model of `api.create_log`: look up the first registry row whose
`tool_name` equals the request's tool name; if none, raise 404 with the
state untouched; otherwise append one log row referencing that row's `id`
and acknowledge with the new log id. -/
def create_log (newId now : Nat) (req : LogCreate) (db : DBState) :
    Except HttpError LogResponse × DBState :=
  match db.registry.find? (fun t => t.tool_name == req.tool_name) with
  | none =>
      (Except.error
        { status_code := 404,
          detail := "Tool " ++ req.tool_name ++ " not found in registry" }, db)
  | some tool =>
      let newLog : LogEntry :=
        { id := newId, tool_id := tool.id, agent_framework := req.agent_framework,
          input_arguments := req.input_arguments,
          execution_result := req.execution_result,
          is_anomaly := req.is_anomaly, timestamp := now }
      (Except.ok { status := "success", log_id := newId },
       { db with logs := db.logs ++ [newLog] })

/- ### Session/translator state and adapter generation (`atp_translator.py`) -/

/-- One discovered MCP tool descriptor: name, optional description, and the
provider-supplied input schema (a JSON object). -/
structure McpTool where
  name : String
  description : Option String
  inputSchema : List (String × Json)

/-- The caller-visible surface of one generated adapter: the framework tag,
the exposed name and description, and the generated argument contract the
wrapper closes over. -/
structure AdapterTool where
  framework : String
  name : String
  description : String
  args_schema : PydModel

/-- Model of `_generate_crewai_tool`: a `DynamicCrewAITool` carrying the
tool name, its description (with the synthesized fallback) and the
generated schema. -/
def generateCrewaiTool (t : McpTool) : AdapterTool :=
  { framework := "crewai", name := t.name,
    description := t.description.getD ("Tool to execute " ++ t.name),
    args_schema := generatePydanticModel t.name t.inputSchema }

/-- Model of `_generate_langchain_tool`: a `StructuredTool` with the same
name/description/schema surface. -/
def generateLangchainTool (t : McpTool) : AdapterTool :=
  { framework := "langchain", name := t.name,
    description := t.description.getD ("Tool to execute " ++ t.name),
    args_schema := generatePydanticModel t.name t.inputSchema }

/-- Model of `_generate_autogen_tool`: a `DynamicAutoGenTool` (note the
shorter description fallback). -/
def generateAutogenTool (t : McpTool) : AdapterTool :=
  { framework := "autogen", name := t.name,
    description := t.description.getD ("Tool " ++ t.name),
    args_schema := generatePydanticModel t.name t.inputSchema }

/-- The per-tool dispatch of `get_tools` on `self.target_framework`,
raising `ValueError` on an unrecognized framework. -/
def translateTool (target : String) (t : McpTool) : Except String AdapterTool :=
  if target = "crewai" then Except.ok (generateCrewaiTool t)
  else if target = "langchain" then Except.ok (generateLangchainTool t)
  else if target = "autogen" then Except.ok (generateAutogenTool t)
  else Except.error ("Unsupported target framework: " ++ target)

/-- The `for mcp_tool in response.tools` loop of `get_tools`.  Per tool:
when the DB is available, the registration block runs first, with any
exception it raises caught and printed (`regFail i` true models a failure
anywhere in that block, leaving the registry as the session sees it);
then the framework dispatch either appends the translated adapter or
raises out of the whole call.  `ids`/`times` supply the column defaults of
rows inserted for the i-th tool. -/
def getToolsLoop (target serverName : String) (dbAvail : Bool)
    (regFail : Nat → Bool) (ids times : Nat → Nat) :
    List McpTool → Nat → List Manifest → Except String (List AdapterTool × List Manifest)
  | [], _, reg => Except.ok ([], reg)
  | t :: ts, i, reg =>
      let reg' := if dbAvail then
          (if regFail i then reg
           else (registryUpsert (ids i) (times i) serverName t.name t.inputSchema reg).2)
        else reg
      match translateTool target t with
      | Except.error e => Except.error e
      | Except.ok a =>
          match getToolsLoop target serverName dbAvail regFail ids times ts (i + 1) reg' with
          | Except.error e => Except.error e
          | Except.ok (as, regFin) => Except.ok (a :: as, regFin)

/-- Model of `ATPTranslator.get_tools`: the not-connected guard, the
server-name derivation (`self.server_params.command` when set, else
`"Unknown"`), and the per-tool loop.  `dbAvail` false models the
`ImportError` path where no registry session exists at all. -/
def getTools (connected : Bool) (target : String) (serverParams : Option String)
    (dbAvail : Bool) (regFail : Nat → Bool) (ids times : Nat → Nat)
    (tools : List McpTool) (reg : List Manifest) :
    Except String (List AdapterTool × List Manifest) :=
  if connected then
    getToolsLoop target (serverParams.getD "Unknown") dbAvail regFail ids times tools 0 reg
  else Except.error "Not connected to an MCP server. Call connect() first."

/-- The connection-relevant state of an `ATPTranslator` instance. -/
structure ATPTranslatorState where
  target_framework : String
  server_params : Option String
  exit_stack : Option Nat
  session : Option Nat
deriving DecidableEq

/-- Python `str.lower()` (ASCII case mapping suffices for the framework
names in scope). -/
def pyLower (s : String) : String := String.mk (s.data.map Char.toLower)

/-- Model of `ATPTranslator.__init__`. -/
def translatorInit (targetFramework : String) : ATPTranslatorState :=
  { target_framework := pyLower targetFramework, server_params := none,
    exit_stack := none, session := none }

/-- Model of `ATPTranslator.connect`: unconditionally (there is no
already-connected check) store the parameters, create a fresh exit stack
and enter a fresh stdio context and client session.  `newStack` and
`newSession` stand for the successfully established handles; the previous
handles, if any, are overwritten without being closed. -/
def translatorConnect (st : ATPTranslatorState) (params : String)
    (newStack newSession : Nat) : Except String ATPTranslatorState :=
  Except.ok { st with server_params := some params,
                      exit_stack := some newStack, session := some newSession }

/- ### Invocation classification and best-effort logging (adapter bodies) -/

/-- One MCP content fragment as the adapters read it: its `type` tag and
its `text` attribute (dereferenced by the code only when the tag is
`"text"`; for other fragment kinds the field is inert in this model). -/
structure ContentItem where
  ctype : String
  text : String
deriving DecidableEq

/-- The shape of `session.call_tool`'s return value as consumed by the
adapters: the error flag and the content fragments. -/
structure CallToolResult where
  isError : Bool
  content : List ContentItem
deriving DecidableEq

/-- An ASCII single quote, kept out of the source text. -/
def pyQuote : String := String.mk [Char.ofNat 39]

/-- Python `repr` of a string as it appears inside an object repr:
single-quoted with backslash and quote escaped (CPython also escapes
control characters and may switch quote style; those cases are not
exercised by any theorem). -/
def pyStrRepr (s : String) : String :=
  pyQuote ++
    String.join (s.data.map (fun c =>
      if c.toNat = 92 then String.mk [Char.ofNat 92, Char.ofNat 92]
      else if c.toNat = 39 then String.mk [Char.ofNat 92, Char.ofNat 39]
      else String.mk [c])) ++
  pyQuote

/-- Rendering of one content fragment under the f-string interpolation
`f"Error executing tool: {result.content}"`.  The concrete format is owned
by the pydantic runtime (class name, field list, quoting); it is modelled
after the text fragments the providers produce, and no theorem depends on
its internals, only on the composed result carrying the rendering
verbatim. -/
def contentItemStr (c : ContentItem) : String :=
  "TextContent(type=" ++ pyStrRepr c.ctype ++ ", text=" ++ pyStrRepr c.text ++
    ", annotations=None)"

/-- Rendering of the fragment list (Python list repr). -/
def contentListStr (l : List ContentItem) : String :=
  "[" ++ String.intercalate ", " (l.map contentItemStr) ++ "]"

/-- The outcome classification shared verbatim by the three adapter bodies
(`_arun`, `DynamicCrewAITool._run`'s `_async_call`, and the AutoGen
`_async_call`): an error result sets the anomaly flag and composes the
result text from the rendered error detail; otherwise the text fragments
are concatenated in order. -/
def classifyResult (result : CallToolResult) : Bool × String :=
  if result.isError then
    (true, "Error executing tool: " ++ contentListStr result.content)
  else
    (false, result.content.foldl
      (fun out c => if c.ctype == "text" then out ++ c.text else out) "")

/-- The structured record POSTed to `/logs` by every adapter. -/
structure LogPayload where
  tool_name : String
  agent_framework : String
  input_arguments : Json
  execution_result : String
  is_anomaly : Bool

/-- Model of the shared adapter body: await the provider call (an exception
there propagates), classify the outcome, then `try` to deliver the log
payload — `logDelivery` covers everything inside the `try`, including the
JSON round-trip of the arguments — with any exception caught and printed
(`except Exception as e: print(...)`); the classified output is returned
either way. -/
def adapterInvoke (framework toolName : String) (kwargs : Json)
    (callOutcome : Except String CallToolResult)
    (logDelivery : LogPayload → Except String Unit) : Except String String :=
  match callOutcome with
  | Except.error e => Except.error e
  | Except.ok result =>
      let c := classifyResult result
      let payload : LogPayload :=
        { tool_name := toolName, agent_framework := framework,
          input_arguments := kwargs, execution_result := c.2, is_anomaly := c.1 }
      match logDelivery payload with
      | Except.ok _ => Except.ok c.2
      | Except.error _ => Except.ok c.2

/-- Strict key order on rendered entries, used to compare sorted outputs. -/
def entryLT (a b : String × String) : Prop := a.1 < b.1

instance : IsAntisymm (String × String) entryLT :=
  ⟨fun _ _ h₁ h₂ => absurd h₂ (lt_asymm h₁)⟩

/-- The dummy provider's `calculate_sum` input schema, used as concrete
witness input. -/
def sampleInputSchema : List (String × Json) :=
  [("properties", Json.jobj
      [("a", Json.jobj [("title", Json.jstr "A"), ("type", Json.jstr "integer")]),
       ("b", Json.jobj [("title", Json.jstr "B"), ("type", Json.jstr "integer")])]),
   ("required", Json.jarr [Json.jstr "a", Json.jstr "b"]),
   ("title", Json.jstr "calculate_sumArguments"),
   ("type", Json.jstr "object")]

/-- Concatenation, in order, of the textual content fragments of a
response (the spec's phrasing of the success-path result string). -/
def concatTexts : List ContentItem → String
  | [] => ""
  | c :: cs => (if c.ctype == "text" then c.text else "") ++ concatTexts cs

/- ### Helper lemmas: canonical serialization -/

theorem dumpsEntries_eq_map (l : List (String × Json)) :
    dumpsEntries l = l.map (fun e => (e.1, Json.dumps e.2)) := by
  induction l with
  | nil => simp [dumpsEntries]
  | cons e es ih => cases e; simp [dumpsEntries, ih]

theorem pairwise_entryLT_of_sorted {l : List (String × String)}
    (hs : List.Pairwise entryLE l) (hnd : (l.map Prod.fst).Nodup) :
    List.Pairwise entryLT l := by
  have hne : List.Pairwise (fun a b : String × String => a.1 ≠ b.1) l :=
    (List.pairwise_map).mp hnd
  exact (hs.and hne).imp (fun h => lt_of_le_of_ne h.1 h.2)

theorem sortStrEntries_eq_of_perm {l₁ l₂ : List (String × String)}
    (hp : List.Perm l₁ l₂) (hnd : (l₁.map Prod.fst).Nodup) :
    sortStrEntries l₁ = sortStrEntries l₂ := by
  have hs₁ : List.Pairwise entryLE (sortStrEntries l₁) :=
    List.sorted_insertionSort entryLE l₁
  have hs₂ : List.Pairwise entryLE (sortStrEntries l₂) :=
    List.sorted_insertionSort entryLE l₂
  have hp₁ : List.Perm (sortStrEntries l₁) l₁ := List.perm_insertionSort entryLE l₁
  have hp₂ : List.Perm (sortStrEntries l₂) l₂ := List.perm_insertionSort entryLE l₂
  have hp' : List.Perm (sortStrEntries l₁) (sortStrEntries l₂) :=
    hp₁.trans (hp.trans hp₂.symm)
  have hnd₁ : ((sortStrEntries l₁).map Prod.fst).Nodup :=
    ((hp₁.map Prod.fst).nodup_iff).mpr hnd
  have hnd₂ : ((sortStrEntries l₂).map Prod.fst).Nodup :=
    ((hp'.map Prod.fst).nodup_iff).mp hnd₁
  exact List.eq_of_perm_of_sorted hp'
    (pairwise_entryLT_of_sorted hs₁ hnd₁) (pairwise_entryLT_of_sorted hs₂ hnd₂)

theorem dumps_jobj_congr {l₁ l₂ : List (String × Json)}
    (h : sortStrEntries (dumpsEntries l₁) = sortStrEntries (dumpsEntries l₂)) :
    Json.dumps (Json.jobj l₁) = Json.dumps (Json.jobj l₂) := by
  simp only [Json.dumps, h]

theorem dumps_jobj_perm {l₁ l₂ : List (String × Json)}
    (hp : List.Perm l₁ l₂) (hnd : (l₁.map Prod.fst).Nodup) :
    Json.dumps (Json.jobj l₁) = Json.dumps (Json.jobj l₂) := by
  apply dumps_jobj_congr
  apply sortStrEntries_eq_of_perm
  · rw [dumpsEntries_eq_map, dumpsEntries_eq_map]
    exact hp.map _
  · rw [dumpsEntries_eq_map, List.map_map]
    exact hnd

/- ### C2 -/

/-- C2: the fingerprint is deterministic and key-order-independent — for
every provider name, tool name and schema, computing the fingerprint twice
yields identical output; permuting a schema object's entry insertion order
(in particular the insertion order of the nested `properties` object)
yields the same fingerprint; and the result equals the SHA-256 hex digest
of the canonical string
`providerName ++ ":" ++ toolName ++ ":" ++ canonical JSON of the schema`. -/
theorem fingerprint_deterministic_canonical :
    (∀ (s t : String) (j : Json),
        generate_manifest_hash s t j = generate_manifest_hash s t j)
    ∧ (∀ (s t : String) (l₁ l₂ : List (String × Json)),
        List.Perm l₁ l₂ → (l₁.map Prod.fst).Nodup →
        generate_manifest_hash s t (Json.jobj l₁)
          = generate_manifest_hash s t (Json.jobj l₂))
    ∧ (∀ (s t ty : String) (props₁ props₂ : List (String × Json)) (req : List Json),
        List.Perm props₁ props₂ → (props₁.map Prod.fst).Nodup →
        generate_manifest_hash s t (Json.jobj
            [("type", Json.jstr ty), ("properties", Json.jobj props₁),
             ("required", Json.jarr req)])
          = generate_manifest_hash s t (Json.jobj
            [("type", Json.jstr ty), ("properties", Json.jobj props₂),
             ("required", Json.jarr req)]))
    ∧ (∀ (s t : String) (j : Json),
        generate_manifest_hash s t j
          = sha256Hex (strBytes (s ++ ":" ++ t ++ ":" ++ Json.dumps j))) := by
  refine ⟨fun _ _ _ => rfl, ?_, ?_, fun _ _ _ => rfl⟩
  · intro s t l₁ l₂ hp hnd
    unfold generate_manifest_hash
    rw [dumps_jobj_perm hp hnd]
  · intro s t ty props₁ props₂ req hp hnd
    unfold generate_manifest_hash
    have hd : Json.dumps (Json.jobj props₁) = Json.dumps (Json.jobj props₂) :=
      dumps_jobj_perm hp hnd
    have he : dumpsEntries
        [("type", Json.jstr ty), ("properties", Json.jobj props₁),
         ("required", Json.jarr req)]
        = dumpsEntries
        [("type", Json.jstr ty), ("properties", Json.jobj props₂),
         ("required", Json.jarr req)] := by
      simp [dumpsEntries, hd]
    have hbig : Json.dumps (Json.jobj
          [("type", Json.jstr ty), ("properties", Json.jobj props₁),
           ("required", Json.jarr req)])
        = Json.dumps (Json.jobj
          [("type", Json.jstr ty), ("properties", Json.jobj props₂),
           ("required", Json.jarr req)]) := dumps_jobj_congr (by rw [he])
    rw [hbig]

/-- Witness for C2: a concrete two-key schema in both insertion orders —
the permutation and key-distinctness hypotheses hold and the fingerprints
agree. -/
theorem fingerprint_deterministic_canonical_witness :
    List.Perm [("b", Json.jnum 2), ("a", Json.jnum 1)]
      [("a", Json.jnum 1), ("b", Json.jnum 2)]
    ∧ (([("b", Json.jnum 2), ("a", Json.jnum 1)] : List (String × Json)).map
        Prod.fst).Nodup
    ∧ generate_manifest_hash "python" "calculate_sum"
        (Json.jobj [("b", Json.jnum 2), ("a", Json.jnum 1)])
      = generate_manifest_hash "python" "calculate_sum"
        (Json.jobj [("a", Json.jnum 1), ("b", Json.jnum 2)]) :=
  ⟨List.Perm.swap ("a", Json.jnum 1) ("b", Json.jnum 2) [],
   by decide,
   fingerprint_deterministic_canonical.2.1 "python" "calculate_sum" _ _
     (List.Perm.swap ("a", Json.jnum 1) ("b", Json.jnum 2) []) (by decide)⟩

/- ### C1 -/

theorem find?_append_none {α : Type} {p : α → Bool} {l₁ l₂ : List α}
    (h : l₁.find? p = none) : (l₁ ++ l₂).find? p = l₂.find? p := by
  rw [List.find?_append, h, Option.none_or]

/-- C1: the discovery-time upsert is idempotent per fingerprint — under the
`manifest_hash` uniqueness constraint (at most one row per fingerprint),
upserting the same (provider, tool, schema) twice yields the same manifest
both times (hence the same id), the second run leaves the registry
unchanged, and the registry afterwards holds exactly one manifest for that
fingerprint (which the returned manifest carries). -/
theorem registry_upsert_idempotent (id₁ t₁ id₂ t₂ : Nat) (server tool : String)
    (schema : List (String × Json)) (reg : List Manifest)
    (huniq : reg.countP
        (fun m => m.manifest_hash == generate_manifest_hash server tool (Json.jobj schema)) ≤ 1) :
    (registryUpsert id₂ t₂ server tool schema
        (registryUpsert id₁ t₁ server tool schema reg).2).1
      = (registryUpsert id₁ t₁ server tool schema reg).1
    ∧ (registryUpsert id₂ t₂ server tool schema
        (registryUpsert id₁ t₁ server tool schema reg).2).2
      = (registryUpsert id₁ t₁ server tool schema reg).2
    ∧ ((registryUpsert id₁ t₁ server tool schema reg).2).countP
        (fun m => m.manifest_hash == generate_manifest_hash server tool (Json.jobj schema)) = 1
    ∧ (registryUpsert id₁ t₁ server tool schema reg).1.manifest_hash
      = generate_manifest_hash server tool (Json.jobj schema) := by
  cases hfind : reg.find?
      (fun m => m.manifest_hash == generate_manifest_hash server tool (Json.jobj schema)) with
  | some m =>
      have h1 : registryUpsert id₁ t₁ server tool schema reg = (m, reg) := by
        simp only [registryUpsert, hfind]
      have h2 : registryUpsert id₂ t₂ server tool schema reg = (m, reg) := by
        simp only [registryUpsert, hfind]
      have hpm := List.find?_some hfind
      have hpos : 0 < reg.countP
          (fun m => m.manifest_hash == generate_manifest_hash server tool (Json.jobj schema)) :=
        List.countP_pos_iff.mpr ⟨m, List.mem_of_find?_eq_some hfind, hpm⟩
      refine ⟨by simp [h1, h2], by simp [h1, h2], by simp [h1]; omega,
              by simp [h1]; exact eq_of_beq hpm⟩
  | none =>
      have h1 : registryUpsert id₁ t₁ server tool schema reg
          = (newManifest id₁ t₁ server tool schema,
             reg ++ [newManifest id₁ t₁ server tool schema]) := by
        simp only [registryUpsert, hfind]
      have hself : ((newManifest id₁ t₁ server tool schema).manifest_hash
          == generate_manifest_hash server tool (Json.jobj schema)) = true := by
        simp [newManifest]
      have hfind₂ : (reg ++ [newManifest id₁ t₁ server tool schema]).find?
          (fun m => m.manifest_hash == generate_manifest_hash server tool (Json.jobj schema))
          = some (newManifest id₁ t₁ server tool schema) := by
        rw [find?_append_none hfind]
        simp [List.find?_cons, hself]
      have h2 : registryUpsert id₂ t₂ server tool schema
          (reg ++ [newManifest id₁ t₁ server tool schema])
          = (newManifest id₁ t₁ server tool schema,
             reg ++ [newManifest id₁ t₁ server tool schema]) := by
        simp only [registryUpsert, hfind₂]
      have hzero : reg.countP
          (fun m => m.manifest_hash == generate_manifest_hash server tool (Json.jobj schema)) = 0 :=
        List.countP_eq_zero.mpr (List.find?_eq_none.mp hfind)
      refine ⟨by simp [h1, h2], by simp [h1, h2], ?_, by simp [h1, newManifest]⟩
      simp [h1, List.countP_append, hzero, hself]

/-- Witness for C1: the empty registry trivially satisfies the uniqueness
constraint, and a concrete double upsert of the dummy server's
`calculate_sum` schema returns the same manifest twice, leaves the second
registry unchanged, and stores exactly one row for the fingerprint. -/
theorem registry_upsert_idempotent_witness :
    ((([] : List Manifest)).countP
        (fun m => m.manifest_hash == generate_manifest_hash "python" "calculate_sum"
          (Json.jobj [("a", Json.jobj [("type", Json.jstr "integer")])])) ≤ 1)
    ∧ ((registryUpsert 2 2 "python" "calculate_sum"
          [("a", Json.jobj [("type", Json.jstr "integer")])]
          (registryUpsert 1 1 "python" "calculate_sum"
            [("a", Json.jobj [("type", Json.jstr "integer")])] []).2).1
        = (registryUpsert 1 1 "python" "calculate_sum"
            [("a", Json.jobj [("type", Json.jstr "integer")])] []).1
      ∧ (registryUpsert 2 2 "python" "calculate_sum"
          [("a", Json.jobj [("type", Json.jstr "integer")])]
          (registryUpsert 1 1 "python" "calculate_sum"
            [("a", Json.jobj [("type", Json.jstr "integer")])] []).2).2
        = (registryUpsert 1 1 "python" "calculate_sum"
            [("a", Json.jobj [("type", Json.jstr "integer")])] []).2
      ∧ ((registryUpsert 1 1 "python" "calculate_sum"
            [("a", Json.jobj [("type", Json.jstr "integer")])] []).2).countP
          (fun m => m.manifest_hash == generate_manifest_hash "python" "calculate_sum"
            (Json.jobj [("a", Json.jobj [("type", Json.jstr "integer")])])) = 1
      ∧ (registryUpsert 1 1 "python" "calculate_sum"
            [("a", Json.jobj [("type", Json.jstr "integer")])] []).1.manifest_hash
        = generate_manifest_hash "python" "calculate_sum"
            (Json.jobj [("a", Json.jobj [("type", Json.jstr "integer")])])) :=
  ⟨by decide,
   registry_upsert_idempotent 1 1 2 2 "python" "calculate_sum"
     [("a", Json.jobj [("type", Json.jstr "integer")])] [] (by decide)⟩

/- ### C3 -/

theorem fieldOfProperty_obj (req : List Json) (k : String) (fs : List (String × Json)) :
    fieldOfProperty req (k, Json.jobj fs)
      = if req.any (jsonEqStr k) then
          { name := k, type := jsonSchemaToPydanticType fs, isOptional := false,
            required := true,
            description := (lookupKey "description" fs).getD (Json.jstr "") }
        else
          { name := k, type := jsonSchemaToPydanticType fs, isOptional := true,
            required := false,
            description := (lookupKey "description" fs).getD (Json.jstr "") } := rfl

theorem fieldOfProperty_name (req : List Json) (p : String × Json) :
    (fieldOfProperty req p).name = p.1 := by
  obtain ⟨k, v⟩ := p
  cases v
  case jobj fs =>
    rw [fieldOfProperty_obj]
    split <;> rfl
  all_goals rfl

theorem any_jsonEqStr_iff (n : String) (req : List Json) :
    req.any (jsonEqStr n) = true ↔ Json.jstr n ∈ req := by
  rw [List.any_eq_true]
  constructor
  · rintro ⟨j, hj, hjs⟩
    cases j <;> simp [jsonEqStr] at hjs
    subst hjs
    exact hj
  · intro h
    exact ⟨Json.jstr n, h, by simp [jsonEqStr]⟩

/-- C3: schema translation is total and exact over the property set — on
the embedded domain, every property of the schema appears as a field of the
generated contract, in order and by name; a field is required iff its name
is in the schema's required list, and is otherwise optional (wrapped in
`Optional[...]`, defaulted); each field carries the source description and
the type mapped from its declared type; the six primitive type names map to
their semantic types; any other declared type name degrades to the open
`Any` type rather than being dropped or raising. -/
theorem schema_translation_total (toolName : String)
    (inputSchema : List (String × Json)) (hwf : schemaWF inputSchema = true) :
    ((generatePydanticModel toolName inputSchema).fields.map PydField.name
        = (schemaProperties inputSchema).map Prod.fst)
    ∧ List.Forall₂ (fun (p : String × Json) (f : PydField) =>
        f.name = p.1
        ∧ (f.required = true ↔ Json.jstr p.1 ∈ schemaRequired inputSchema)
        ∧ f.isOptional = !f.required
        ∧ ∀ fs, p.2 = Json.jobj fs →
            f.type = jsonSchemaToPydanticType fs
            ∧ f.description = (lookupKey "description" fs).getD (Json.jstr ""))
        (schemaProperties inputSchema)
        (generatePydanticModel toolName inputSchema).fields
    ∧ (typeMapping "string" = PydType.str ∧ typeMapping "integer" = PydType.int
       ∧ typeMapping "number" = PydType.float ∧ typeMapping "boolean" = PydType.bool
       ∧ typeMapping "array" = PydType.list ∧ typeMapping "object" = PydType.dict)
    ∧ (∀ s : String, s ≠ "string" → s ≠ "integer" → s ≠ "number" →
        s ≠ "boolean" → s ≠ "array" → s ≠ "object" → typeMapping s = PydType.any)
    ∧ (∀ fs s, lookupKey "type" fs = some (Json.jstr s) →
        jsonSchemaToPydanticType fs = typeMapping s) := by
  have hprops : ∀ p ∈ schemaProperties inputSchema, propWF p = true := by
    intro p hp
    unfold schemaWF at hwf
    rw [Bool.and_eq_true] at hwf
    obtain ⟨hwf1, _⟩ := hwf
    unfold schemaProperties at hp
    cases hlk : lookupKey "properties" inputSchema with
    | none => rw [hlk] at hp; simp at hp
    | some j =>
        rw [hlk] at hp hwf1
        cases j
        case jobj l =>
          rw [List.all_eq_true] at hwf1
          exact hwf1 p hp
        all_goals simp at hwf1
  refine ⟨?_, ?_, ⟨rfl, rfl, rfl, rfl, rfl, rfl⟩, ?_, ?_⟩
  · simp only [generatePydanticModel, List.map_map]
    apply List.map_congr_left
    intro p _
    exact fieldOfProperty_name _ p
  · simp only [generatePydanticModel]
    rw [List.forall₂_map_right_iff, List.forall₂_same]
    intro p hp
    have hw := hprops p hp
    obtain ⟨k, v⟩ := p
    cases v
    case jobj fs =>
      cases hreq : (schemaRequired inputSchema).any (jsonEqStr k) with
      | true =>
          rw [fieldOfProperty_obj, if_pos hreq]
          refine ⟨rfl, ⟨fun _ => (any_jsonEqStr_iff k _).mp hreq, fun _ => rfl⟩,
                  rfl, ?_⟩
          intro fs' hfs'
          injection hfs' with h
          subst h
          exact ⟨rfl, rfl⟩
      | false =>
          rw [fieldOfProperty_obj, if_neg (by rw [hreq]; simp)]
          refine ⟨rfl, ?_, rfl, ?_⟩
          · constructor
            · intro hcon
              exact absurd hcon (by simp)
            · intro hmem
              rw [(any_jsonEqStr_iff k _).mpr hmem] at hreq
              exact absurd hreq (by simp)
          · intro fs' hfs'
            injection hfs' with h
            subst h
            exact ⟨rfl, rfl⟩
    all_goals simp [propWF] at hw
  · intro s h1 h2 h3 h4 h5 h6
    simp [typeMapping, h1, h2, h3, h4, h5, h6]
  · intro fs s hlk
    simp [jsonSchemaToPydanticType, hlk]

/-- Witness for C3: the dummy provider's `calculate_sum` schema is in the
embedded domain and satisfies the translation contract. -/
theorem schema_translation_total_witness :
    schemaWF sampleInputSchema = true
    ∧ (((generatePydanticModel "calculate_sum" sampleInputSchema).fields.map PydField.name
          = (schemaProperties sampleInputSchema).map Prod.fst)
      ∧ List.Forall₂ (fun (p : String × Json) (f : PydField) =>
          f.name = p.1
          ∧ (f.required = true ↔ Json.jstr p.1 ∈ schemaRequired sampleInputSchema)
          ∧ f.isOptional = !f.required
          ∧ ∀ fs, p.2 = Json.jobj fs →
              f.type = jsonSchemaToPydanticType fs
              ∧ f.description = (lookupKey "description" fs).getD (Json.jstr ""))
          (schemaProperties sampleInputSchema)
          (generatePydanticModel "calculate_sum" sampleInputSchema).fields
      ∧ (typeMapping "string" = PydType.str ∧ typeMapping "integer" = PydType.int
         ∧ typeMapping "number" = PydType.float ∧ typeMapping "boolean" = PydType.bool
         ∧ typeMapping "array" = PydType.list ∧ typeMapping "object" = PydType.dict)
      ∧ (∀ s : String, s ≠ "string" → s ≠ "integer" → s ≠ "number" →
          s ≠ "boolean" → s ≠ "array" → s ≠ "object" → typeMapping s = PydType.any)
      ∧ (∀ fs s, lookupKey "type" fs = some (Json.jstr s) →
          jsonSchemaToPydanticType fs = typeMapping s)) :=
  ⟨by decide, schema_translation_total "calculate_sum" sampleInputSchema (by decide)⟩

/- ### C4 -/

theorem foldl_concatTexts (l : List ContentItem) (acc : String) :
    l.foldl (fun out c => if c.ctype == "text" then out ++ c.text else out) acc
      = acc ++ concatTexts l := by
  induction l generalizing acc with
  | nil => simp [concatTexts]
  | cons c cs ih =>
      rw [List.foldl_cons]
      cases hc : c.ctype == "text" with
      | true =>
          rw [if_pos rfl, ih]
          simp only [concatTexts]
          rw [if_pos hc, String.append_assoc]
      | false =>
          have hcn : ¬((c.ctype == "text") = true) := by rw [hc]; simp
          rw [if_neg (by simp), ih]
          simp only [concatTexts]
          rw [if_neg hcn]
          simp

/-- C4: anomaly classification of every adapter invocation — an error
result yields the anomaly flag set and a result string that carries the
rendered error detail (it is exactly the fixed prefix followed by the
rendered content, hence contains it); a success result yields the anomaly
flag clear and a result string equal to the concatenation, in order, of
the textual content fragments. -/
theorem anomaly_classification (result : CallToolResult) :
    (result.isError = true →
        (classifyResult result).1 = true
        ∧ (classifyResult result).2
            = "Error executing tool: " ++ contentListStr result.content
        ∧ ∃ p, (classifyResult result).2 = p ++ contentListStr result.content)
    ∧ (result.isError = false →
        (classifyResult result).1 = false
        ∧ (classifyResult result).2 = concatTexts result.content) := by
  constructor
  · intro he
    have h : classifyResult result
        = (true, "Error executing tool: " ++ contentListStr result.content) := by
      simp [classifyResult, he]
    exact ⟨by rw [h], by rw [h], ⟨"Error executing tool: ", by rw [h]⟩⟩
  · intro he
    have h : classifyResult result
        = (false, concatTexts result.content) := by
      have hcn : ¬(result.isError = true) := by rw [he]; simp
      simp only [classifyResult, if_neg hcn]
      rw [foldl_concatTexts]
      simp
    exact ⟨by rw [h], by rw [h]⟩

/-- Witness for C4: the spec's two end-to-end outcomes — an error response
with detail `division by zero`, and a success response whose text
fragments concatenate to `12` (with a non-text fragment ignored). -/
theorem anomaly_classification_witness :
    ((⟨true, [⟨"text", "division by zero"⟩]⟩ : CallToolResult).isError = true
      ∧ (classifyResult ⟨true, [⟨"text", "division by zero"⟩]⟩).1 = true
      ∧ (∃ p, (classifyResult ⟨true, [⟨"text", "division by zero"⟩]⟩).2
          = p ++ contentListStr [⟨"text", "division by zero"⟩]))
    ∧ ((⟨false, [⟨"text", "1"⟩, ⟨"image", "x"⟩, ⟨"text", "2"⟩]⟩ : CallToolResult).isError = false
      ∧ (classifyResult ⟨false, [⟨"text", "1"⟩, ⟨"image", "x"⟩, ⟨"text", "2"⟩]⟩).1 = false
      ∧ (classifyResult ⟨false, [⟨"text", "1"⟩, ⟨"image", "x"⟩, ⟨"text", "2"⟩]⟩).2
          = concatTexts [⟨"text", "1"⟩, ⟨"image", "x"⟩, ⟨"text", "2"⟩]) :=
  ⟨⟨rfl, ((anomaly_classification ⟨true, [⟨"text", "division by zero"⟩]⟩).1 rfl).1,
    ((anomaly_classification ⟨true, [⟨"text", "division by zero"⟩]⟩).1 rfl).2.2⟩,
   ⟨rfl, ((anomaly_classification ⟨false, [⟨"text", "1"⟩, ⟨"image", "x"⟩, ⟨"text", "2"⟩]⟩).2 rfl).1,
    ((anomaly_classification ⟨false, [⟨"text", "1"⟩, ⟨"image", "x"⟩, ⟨"text", "2"⟩]⟩).2 rfl).2⟩⟩

/- ### C5 -/

/-- C5: logging-delivery failure never reaches the caller — for every
provider result and every pair of logging-delivery behaviours (including
ones that fail for any reason on any payload), the adapter returns the
classified result text without raising, and the return value does not
depend on the delivery outcome. -/
theorem logging_failure_transparent (framework toolName : String) (kwargs : Json)
    (result : CallToolResult) (d d' : LogPayload → Except String Unit) :
    adapterInvoke framework toolName kwargs (Except.ok result) d
      = Except.ok (classifyResult result).2
    ∧ adapterInvoke framework toolName kwargs (Except.ok result) d
      = adapterInvoke framework toolName kwargs (Except.ok result) d' := by
  have h : ∀ g : LogPayload → Except String Unit,
      adapterInvoke framework toolName kwargs (Except.ok result) g
        = Except.ok (classifyResult result).2 := by
    intro g
    simp only [adapterInvoke]
    split <;> rfl
  exact ⟨h d, (h d).trans (h d').symm⟩

/- ### C6 -/

theorem createLog_reject (newId now : Nat) (req : LogCreate) (db : DBState)
    (h : ∀ m ∈ db.registry, m.tool_name ≠ req.tool_name) :
    create_log newId now req db
      = (Except.error
          { status_code := 404,
            detail := "Tool " ++ req.tool_name ++ " not found in registry" },
         db) := by
  have hf : db.registry.find? (fun t => t.tool_name == req.tool_name) = none := by
    rw [List.find?_eq_none]
    intro m hm
    simpa using h m hm
  simp only [create_log, hf]

/-- C6: the log-record operation rejects unknown tools atomically — when no
registry row carries the requested tool name, `create_log` raises the 404
`ToolNotRegistered` error, fabricates no manifest, and writes no log entry
(both stores are returned unchanged). -/
theorem record_rejects_unknown_tools (newId now : Nat) (req : LogCreate)
    (db : DBState) (h : ∀ m ∈ db.registry, m.tool_name ≠ req.tool_name) :
    (create_log newId now req db).1
      = Except.error
          { status_code := 404,
            detail := "Tool " ++ req.tool_name ++ " not found in registry" }
    ∧ (create_log newId now req db).2.logs = db.logs
    ∧ (create_log newId now req db).2.registry = db.registry := by
  rw [createLog_reject newId now req db h]
  exact ⟨rfl, rfl, rfl⟩

/-- Witness for C6: an empty registry rejects a `calculate_sum` log write
with 404 and stays unchanged. -/
theorem record_rejects_unknown_tools_witness :
    (∀ m ∈ (⟨[], []⟩ : DBState).registry, m.tool_name ≠ "calculate_sum")
    ∧ (create_log 1 1 ⟨"calculate_sum", "crewai", Json.jobj [], "12", false⟩
        ⟨[], []⟩).1
      = Except.error
          { status_code := 404,
            detail := "Tool " ++ "calculate_sum" ++ " not found in registry" }
    ∧ (create_log 1 1 ⟨"calculate_sum", "crewai", Json.jobj [], "12", false⟩
        ⟨[], []⟩).2.logs = []
    ∧ (create_log 1 1 ⟨"calculate_sum", "crewai", Json.jobj [], "12", false⟩
        ⟨[], []⟩).2.registry = [] :=
  ⟨by simp,
   (record_rejects_unknown_tools 1 1
      ⟨"calculate_sum", "crewai", Json.jobj [], "12", false⟩ ⟨[], []⟩ (by simp)).1,
   (record_rejects_unknown_tools 1 1
      ⟨"calculate_sum", "crewai", Json.jobj [], "12", false⟩ ⟨[], []⟩ (by simp)).2.1,
   (record_rejects_unknown_tools 1 1
      ⟨"calculate_sum", "crewai", Json.jobj [], "12", false⟩ ⟨[], []⟩ (by simp)).2.2⟩

/- ### C10 -/

/-- C10: log entries are attached by tool name alone — for a registry
whose first name-matching row is `mA`, every successful log write (for any
requesting framework, arguments and result, and any later rows, including
a same-named tool of a different provider with a different fingerprint)
appends one entry whose `tool_id` is `mA.id`, ignoring provider identity
and schema fingerprint. -/
theorem log_attaches_by_name_only (newId now : Nat) (req : LogCreate)
    (db : DBState) (pre rest : List Manifest) (mA : Manifest)
    (hreg : db.registry = pre ++ mA :: rest)
    (hname : mA.tool_name = req.tool_name)
    (hpre : ∀ m ∈ pre, m.tool_name ≠ req.tool_name) :
    (create_log newId now req db).1
      = Except.ok { status := "success", log_id := newId }
    ∧ (create_log newId now req db).2.logs
        = db.logs ++
          [{ id := newId, tool_id := mA.id,
             agent_framework := req.agent_framework,
             input_arguments := req.input_arguments,
             execution_result := req.execution_result,
             is_anomaly := req.is_anomaly, timestamp := now }]
    ∧ (create_log newId now req db).2.registry = db.registry := by
  have hfpre : pre.find? (fun t => t.tool_name == req.tool_name) = none := by
    rw [List.find?_eq_none]
    intro m hm
    simpa using hpre m hm
  have hf : db.registry.find? (fun t => t.tool_name == req.tool_name) = some mA := by
    rw [hreg, find?_append_none hfpre]
    simp [List.find?_cons, hname]
  simp only [create_log, hf]
  exact ⟨by trivial, by trivial, by trivial⟩

/-- Witness for C10: two providers expose a tool named `dup` (different
providers, different fingerprints); a log write for `dup` attaches to the
first row's id. -/
theorem log_attaches_by_name_only_witness :
    (([ { id := 7, mcp_server_name := "p1", tool_name := "dup",
          manifest_hash := "h1", raw_mcp_schema := Json.jnull,
          pydantic_schema_code := "", success_rate := 1,
          last_anomaly_log := none, created_at := 0 },
        { id := 8, mcp_server_name := "p2", tool_name := "dup",
          manifest_hash := "h2", raw_mcp_schema := Json.jnull,
          pydantic_schema_code := "", success_rate := 1,
          last_anomaly_log := none, created_at := 0 } ] : List Manifest)
      = [] ++ { id := 7, mcp_server_name := "p1", tool_name := "dup",
                manifest_hash := "h1", raw_mcp_schema := Json.jnull,
                pydantic_schema_code := "", success_rate := 1,
                last_anomaly_log := none, created_at := 0 } ::
              [ { id := 8, mcp_server_name := "p2", tool_name := "dup",
                  manifest_hash := "h2", raw_mcp_schema := Json.jnull,
                  pydantic_schema_code := "", success_rate := 1,
                  last_anomaly_log := none, created_at := 0 } ])
    ∧ (create_log 9 9 ⟨"dup", "langchain", Json.jobj [], "ok", false⟩
        ⟨[ { id := 7, mcp_server_name := "p1", tool_name := "dup",
             manifest_hash := "h1", raw_mcp_schema := Json.jnull,
             pydantic_schema_code := "", success_rate := 1,
             last_anomaly_log := none, created_at := 0 },
           { id := 8, mcp_server_name := "p2", tool_name := "dup",
             manifest_hash := "h2", raw_mcp_schema := Json.jnull,
             pydantic_schema_code := "", success_rate := 1,
             last_anomaly_log := none, created_at := 0 } ], []⟩).2.logs
      = [] ++
        [{ id := 9, tool_id := 7, agent_framework := "langchain",
           input_arguments := Json.jobj [], execution_result := "ok",
           is_anomaly := false, timestamp := 9 }] :=
  ⟨rfl,
   (log_attaches_by_name_only 9 9 ⟨"dup", "langchain", Json.jobj [], "ok", false⟩
      _ []
      [ { id := 8, mcp_server_name := "p2", tool_name := "dup",
          manifest_hash := "h2", raw_mcp_schema := Json.jnull,
          pydantic_schema_code := "", success_rate := 1,
          last_anomaly_log := none, created_at := 0 } ]
      { id := 7, mcp_server_name := "p1", tool_name := "dup",
        manifest_hash := "h1", raw_mcp_schema := Json.jnull,
        pydantic_schema_code := "", success_rate := 1,
        last_anomaly_log := none, created_at := 0 }
      rfl rfl (by simp)).2.1⟩

/- ### C7 -/

/-- Counterexample to C7 as stated: a translator configured with the
unsupported framework `openai` whose provider exposes no tools — adapter
generation returns successfully (the empty list) instead of raising; the
`ValueError` sits inside the per-tool loop. -/
theorem unsupported_framework_counterexample :
    ((translatorInit "OpenAI").target_framework
        ∉ (["crewai", "langchain", "autogen"] : List String))
    ∧ getTools true (translatorInit "OpenAI").target_framework (some "python")
        true (fun _ => false) (fun _ => 0) (fun _ => 0) [] []
      = Except.ok ([], []) :=
  ⟨by decide, rfl⟩

/-- C7 (amended): with at least one discovered tool, a translator whose
target framework is outside the supported set fails adapter generation
itself with the `Unsupported target framework` error — surfaced during
`get_tools`, before any adapter is returned, not deferred to invocation. -/
theorem unsupported_framework_fails_fast (target : String) (sp : Option String)
    (dbAvail : Bool) (regFail : Nat → Bool) (ids times : Nat → Nat)
    (tools : List McpTool) (reg : List Manifest)
    (h1 : target ≠ "crewai") (h2 : target ≠ "langchain") (h3 : target ≠ "autogen")
    (hne : tools ≠ []) :
    getTools true target sp dbAvail regFail ids times tools reg
      = Except.error ("Unsupported target framework: " ++ target) := by
  cases tools with
  | nil => exact absurd rfl hne
  | cons t ts =>
      simp [getTools, getToolsLoop, translateTool, h1, h2, h3]

/-- Witness for C7 (amended): one discovered tool and the target `openai`. -/
theorem unsupported_framework_fails_fast_witness :
    (("openai" : String) ≠ "crewai" ∧ ("openai" : String) ≠ "langchain"
      ∧ ("openai" : String) ≠ "autogen"
      ∧ ([⟨"calculate_sum", none, sampleInputSchema⟩] : List McpTool) ≠ [])
    ∧ getTools true "openai" (some "python") false (fun _ => false)
        (fun _ => 0) (fun _ => 0) [⟨"calculate_sum", none, sampleInputSchema⟩] []
      = Except.error ("Unsupported target framework: " ++ "openai") :=
  ⟨⟨by decide, by decide, by decide, by simp⟩,
   unsupported_framework_fails_fast "openai" (some "python") false
     (fun _ => false) (fun _ => 0) (fun _ => 0)
     [⟨"calculate_sum", none, sampleInputSchema⟩] []
     (by decide) (by decide) (by decide) (by simp)⟩

/- ### C8 -/

/-- Counterexample to C8 as stated: `connect` invoked on an
already-connected translator state (session handle present) succeeds — no
misuse error is reported — and silently replaces the stored parameters,
exit stack and session with a fresh channel. -/
theorem connect_guard_counterexample :
    ({ target_framework := "crewai", server_params := some "python",
       exit_stack := some 1, session := some 1 } : ATPTranslatorState).session
      = some 1
    ∧ translatorConnect
        { target_framework := "crewai", server_params := some "python",
          exit_stack := some 1, session := some 1 } "python2" 2 2
      = Except.ok { target_framework := "crewai", server_params := some "python2",
                    exit_stack := some 2, session := some 2 } :=
  ⟨rfl, rfl⟩

/-- C8 (amended): invoking `connect` while a channel is already established
is silently accepted — the call succeeds unconditionally and overwrites the
stored server parameters, exit stack and session with the fresh channel;
the previous channel is neither closed nor reported as a misuse error. -/
theorem connect_silently_replaces (st : ATPTranslatorState) (s₀ : Nat)
    (hconn : st.session = some s₀) (params : String) (newStack newSession : Nat) :
    translatorConnect st params newStack newSession
      = Except.ok { target_framework := st.target_framework,
                    server_params := some params, exit_stack := some newStack,
                    session := some newSession } := rfl

/-- Witness for C8 (amended): a connected state with session handle 5. -/
theorem connect_silently_replaces_witness :
    ({ target_framework := "crewai", server_params := none,
       exit_stack := some 5, session := some 5 } : ATPTranslatorState).session
      = some 5
    ∧ translatorConnect
        { target_framework := "crewai", server_params := none,
          exit_stack := some 5, session := some 5 } "python" 6 7
      = Except.ok { target_framework := "crewai", server_params := some "python",
                    exit_stack := some 6, session := some 7 } :=
  ⟨rfl,
   connect_silently_replaces
     { target_framework := "crewai", server_params := none,
       exit_stack := some 5, session := some 5 } 5 rfl "python" 6 7⟩

/- ### C9 -/

theorem getToolsLoop_crewai_ok (serverName : String) (dbAvail : Bool)
    (regFail : Nat → Bool) (ids times : Nat → Nat) :
    ∀ (tools : List McpTool) (i : Nat) (reg : List Manifest),
    ∃ regFin, getToolsLoop "crewai" serverName dbAvail regFail ids times tools i reg
      = Except.ok (tools.map generateCrewaiTool, regFin) := by
  intro tools
  induction tools with
  | nil => exact fun i reg => ⟨reg, rfl⟩
  | cons t ts ih =>
      intro i reg
      obtain ⟨rf, hrf⟩ := ih (i + 1)
        (if dbAvail then
           (if regFail i then reg
            else (registryUpsert (ids i) (times i) serverName t.name t.inputSchema reg).2)
         else reg)
      refine ⟨rf, ?_⟩
      simp only [getToolsLoop]
      rw [show translateTool "crewai" t = Except.ok (generateCrewaiTool t) from rfl, hrf]
      simp

theorem getToolsLoop_crewai_untouched (serverName : String) (dbAvail : Bool)
    (regFail : Nat → Bool) (ids times : Nat → Nat)
    (hno : dbAvail = false ∨ ∀ i, regFail i = true) :
    ∀ (tools : List McpTool) (i : Nat) (reg : List Manifest),
    getToolsLoop "crewai" serverName dbAvail regFail ids times tools i reg
      = Except.ok (tools.map generateCrewaiTool, reg) := by
  intro tools
  induction tools with
  | nil => exact fun i reg => rfl
  | cons t ts ih =>
      intro i reg
      have hreg : (if dbAvail then
           (if regFail i then reg
            else (registryUpsert (ids i) (times i) serverName t.name t.inputSchema reg).2)
         else reg) = reg := by
        rcases hno with h | h
        · rw [h]; simp
        · rw [h i]; simp
      simp only [getToolsLoop, hreg]
      rw [show translateTool "crewai" t = Except.ok (generateCrewaiTool t) from rfl,
          ih (i + 1) reg]
      simp

/-- C9: registry registration during discovery is best-effort, not a
prerequisite — whatever the DB availability and whichever per-tool
registration attempts fail, `get_tools` returns exactly one working adapter
per discovered tool; when the registry is unavailable, or every insert
raises, the registry is left untouched (so a tool is invocable with no
registry entry at all); and a log write for a tool with no registry row is
then rejected with 404, leaving the store unchanged. -/
theorem registration_best_effort (sp : Option String) (dbAvail : Bool)
    (regFail : Nat → Bool) (ids times : Nat → Nat)
    (tools : List McpTool) (reg : List Manifest) :
    (∃ regFin, getTools true "crewai" sp dbAvail regFail ids times tools reg
        = Except.ok (tools.map generateCrewaiTool, regFin))
    ∧ getTools true "crewai" sp false regFail ids times tools reg
        = Except.ok (tools.map generateCrewaiTool, reg)
    ∧ ((∀ i, regFail i = true) →
        getTools true "crewai" sp true regFail ids times tools reg
          = Except.ok (tools.map generateCrewaiTool, reg))
    ∧ (∀ (newId now : Nat) (req : LogCreate) (logs : List LogEntry),
        (create_log newId now req ⟨[], logs⟩).1
          = Except.error
              { status_code := 404,
                detail := "Tool " ++ req.tool_name ++ " not found in registry" }
        ∧ (create_log newId now req ⟨[], logs⟩).2 = ⟨[], logs⟩) := by
  refine ⟨?_, ?_, ?_, ?_⟩
  · obtain ⟨rf, hrf⟩ :=
      getToolsLoop_crewai_ok (sp.getD "Unknown") dbAvail regFail ids times tools 0 reg
    exact ⟨rf, by simp only [getTools, if_pos rfl]; exact hrf⟩
  · simp only [getTools, if_pos rfl]
    exact getToolsLoop_crewai_untouched (sp.getD "Unknown") false regFail ids times
      (Or.inl rfl) tools 0 reg
  · intro hfail
    simp only [getTools, if_pos rfl]
    exact getToolsLoop_crewai_untouched (sp.getD "Unknown") true regFail ids times
      (Or.inr hfail) tools 0 reg
  · intro newId now req logs
    have h := createLog_reject newId now req ⟨[], logs⟩ (by simp)
    rw [h]
    exact ⟨rfl, rfl⟩

/-- Witness for C9: one discovered tool; with the registry unavailable, and
separately with every insert failing, the crewai adapter is still produced
and the registry stays empty. -/
theorem registration_best_effort_witness :
    (∀ i : Nat, (fun _ : Nat => true) i = true)
    ∧ getTools true "crewai" none false (fun _ => true) (fun _ => 0) (fun _ => 0)
        [⟨"calculate_sum", none, sampleInputSchema⟩] []
      = Except.ok
          (([⟨"calculate_sum", none, sampleInputSchema⟩] : List McpTool).map
            generateCrewaiTool, [])
    ∧ getTools true "crewai" none true (fun _ => true) (fun _ => 0) (fun _ => 0)
        [⟨"calculate_sum", none, sampleInputSchema⟩] []
      = Except.ok
          (([⟨"calculate_sum", none, sampleInputSchema⟩] : List McpTool).map
            generateCrewaiTool, []) :=
  ⟨fun _ => rfl,
   (registration_best_effort none false (fun _ => true) (fun _ => 0) (fun _ => 0)
      [⟨"calculate_sum", none, sampleInputSchema⟩] []).2.1,
   (registration_best_effort none true (fun _ => true) (fun _ => 0) (fun _ => 0)
      [⟨"calculate_sum", none, sampleInputSchema⟩] []).2.2.1 (fun _ => rfl)⟩
